import Mathlib

/-!
Verification of `Box3DMode.convert` from
`mmdet3d/structures/bbox_3d/box_3d_mode.py`.

The converter takes a box representation (a flat list / a numeric array row /
a `BaseInstance3DBoxes` object), a source and a destination coordinate
system among LIDAR, CAM, DEPTH, an optional rotation(+translation) matrix,
and flags `with_yaw`, `correct_yaw`, and returns the converted representation.

The embedding works over `ℝ` (the source's floating-point arithmetic is
modelled exactly).  A numeric `(N, k)` array is modelled by one of its rows
(a `List ℝ`): every operation the source applies is row-independent.  Torch
slicing `arr[..., a:b]` is modelled by `(row.drop a).take (b - a)`, which has
the same clamping behaviour on short rows.  A torch matrix-multiplication
whose inner dimensions disagree raises a runtime error; this is modelled by
the `shapeMismatch` error.
-/

open Real

noncomputable section

/-- The three box coordinate systems, as in the `Box3DMode` enum. -/
inductive Box3DMode
  | LIDAR
  | CAM
  | DEPTH
deriving DecidableEq

/-- A 3-vector of reals. -/
structure Vec3 where
  x : ℝ
  y : ℝ
  z : ℝ

/-- A 3×3 matrix given by its rows. -/
structure Mat3 where
  r0 : Vec3
  r1 : Vec3
  r2 : Vec3

/-- Dot product of two 3-vectors. -/
def dot3 (a b : Vec3) : ℝ :=
  a.x * b.x + a.y * b.y + a.z * b.z

/-- `m · v` for a 3×3 matrix; this is one row of `rows @ m.t()` in torch. -/
def mat3Apply (m : Mat3) (v : Vec3) : Vec3 :=
  ⟨dot3 m.r0 v, dot3 m.r1 v, dot3 m.r2 v⟩

/-- The `rt_mat` argument: a 3×3 rotation, or a 3×4 rotation-plus-translation
(the source tests `rt_mat.size(1) == 4` and then appends a homogeneous 1 to
the coordinates, so the fourth column acts as a translation). -/
inductive RtMat
  | rot3 (m : Mat3)
  | rot4 (m : Mat3) (t : Vec3)

/-- `rt_mat[:3, :3]`: the rotation part. -/
def RtMat.rotPart : RtMat → Mat3
  | rot3 m => m
  | rot4 m _ => m

/-- Apply `rt_mat` to a point: `extended_xyz @ rt_mat.t()` when it has a
fourth column, otherwise `xyz @ rt_mat.t()`. -/
def RtMat.apply : RtMat → Vec3 → Vec3
  | rot3 m, v => mat3Apply m v
  | rot4 m t, v =>
    let w := mat3Apply m v
    ⟨w.x + t.x, w.y + t.y, w.z + t.z⟩

/-- The components of a 3-vector as a row segment. -/
def vec3List (v : Vec3) : List ℝ :=
  [v.x, v.y, v.z]

/-- Modelled from the spec: `limit_period` from
`mmdet3d.structures.bbox_3d.utils`, which is not part of the excerpt.
The spec says `wrap(a) = limit_period(a, period=2π)` "maps `a` into
`[-π, π)` by subtracting the nearest multiple of the period". -/
def limit_period (val period : ℝ) : ℝ :=
  val - period * ⌊val / period + 1 / 2⌋

/-- The yaw wrap used throughout `convert`: `limit_period(·, period=np.pi*2)`. -/
def wrap (a : ℝ) : ℝ :=
  limit_period a (π * 2)

/-- `torch.atan2 y x`, modelled by the argument of the complex number
`x + y·i`, which lies in `(-π, π]`. -/
def atan2 (y x : ℝ) : ℝ :=
  Complex.arg (⟨x, y⟩ : ℂ)

/-- Torch slice `row[a:b]` on one row, with torch's clamping behaviour. -/
def listSlice (l : List ℝ) (a b : Nat) : List ℝ :=
  (l.drop a).take (b - a)

/-- Errors `convert` can raise: the `assert len(box) >= 7` on flat inputs
(`malformedBox`), the final `NotImplementedError` branch
(`unsupportedConversion`), and a torch matmul dimension error
(`shapeMismatch`). -/
inductive ConvertErr
  | malformedBox
  | unsupportedConversion
  | shapeMismatch
deriving DecidableEq

/-- One row of the direction vector `yaw_vector` built when the source system
is LIDAR or DEPTH: `cat([cos(yaw), sin(yaw), zeros_like(yaw)], dim=1)`. -/
def yawVecLidarDepth (yaw : List ℝ) : List ℝ :=
  yaw.map Real.cos ++ yaw.map Real.sin ++ yaw.map (fun _ => 0)

/-- One row of the direction vector `yaw_vector` built when the source system
is CAM: `cat([cos(-yaw), zeros_like(yaw), sin(-yaw)], dim=1)`. -/
def yawVecCam (yaw : List ℝ) : List ℝ :=
  yaw.map (fun w => Real.cos (-w)) ++ yaw.map (fun _ => 0) ++
    yaw.map (fun w => Real.sin (-w))

/-- Default rotation matrix of the LIDAR→CAM branch:
`[[0, -1, 0], [0, 0, -1], [1, 0, 0]]`. -/
def rtLC : RtMat := .rot3 ⟨⟨0, -1, 0⟩, ⟨0, 0, -1⟩, ⟨1, 0, 0⟩⟩

/-- Default rotation matrix of the CAM→LIDAR branch:
`[[0, 0, 1], [-1, 0, 0], [0, -1, 0]]`. -/
def rtCL : RtMat := .rot3 ⟨⟨0, 0, 1⟩, ⟨-1, 0, 0⟩, ⟨0, -1, 0⟩⟩

/-- Default rotation matrix of the DEPTH→CAM branch:
`[[1, 0, 0], [0, 0, -1], [0, 1, 0]]`. -/
def rtDC : RtMat := .rot3 ⟨⟨1, 0, 0⟩, ⟨0, 0, -1⟩, ⟨0, 1, 0⟩⟩

/-- Default rotation matrix of the CAM→DEPTH branch:
`[[1, 0, 0], [0, 0, 1], [0, -1, 0]]`. -/
def rtCD : RtMat := .rot3 ⟨⟨1, 0, 0⟩, ⟨0, 0, 1⟩, ⟨0, -1, 0⟩⟩

/-- Default rotation matrix of the LIDAR→DEPTH branch:
`[[0, -1, 0], [1, 0, 0], [0, 0, 1]]`. -/
def rtLD : RtMat := .rot3 ⟨⟨0, -1, 0⟩, ⟨1, 0, 0⟩, ⟨0, 0, 1⟩⟩

/-- Default rotation matrix of the DEPTH→LIDAR branch:
`[[0, 1, 0], [-1, 0, 0], [0, 0, 1]]`. -/
def rtDL : RtMat := .rot3 ⟨⟨0, 1, 0⟩, ⟨-1, 0, 0⟩, ⟨0, 0, 1⟩⟩

/-- The six per-pair branches of `convert` (source lines 127-218): for a
supported ordered pair, the default rotation matrix (used when `rt_mat` is
`None`), the reordered size columns `xyz_size`, the yaw column after the
closed-form fixup of the `correct_yaw=False` path, and the `yaw_vector` of
the `correct_yaw=True` path.  Returns `none` on the final `else` branch that
raises `NotImplementedError`. -/
def coreBranch (src dst : Box3DMode) (rtOpt : Option RtMat)
    (with_yaw correct_yaw : Bool) (x_size y_size z_size yaw : List ℝ) :
    Option (RtMat × List ℝ × List ℝ × List ℝ) :=
  match src, dst with
  | .LIDAR, .CAM =>
    some (rtOpt.getD rtLC,
      x_size ++ z_size ++ y_size,
      if with_yaw && !correct_yaw then
        yaw.map (fun w => wrap (-w - π / 2)) else yaw,
      if with_yaw && correct_yaw then yawVecLidarDepth yaw else [])
  | .CAM, .LIDAR =>
    some (rtOpt.getD rtCL,
      x_size ++ z_size ++ y_size,
      if with_yaw && !correct_yaw then
        yaw.map (fun w => wrap (-w - π / 2)) else yaw,
      if with_yaw && correct_yaw then yawVecCam yaw else [])
  | .DEPTH, .CAM =>
    some (rtOpt.getD rtDC,
      x_size ++ z_size ++ y_size,
      if with_yaw && !correct_yaw then yaw.map (fun w => -w) else yaw,
      if with_yaw && correct_yaw then yawVecLidarDepth yaw else [])
  | .CAM, .DEPTH =>
    some (rtOpt.getD rtCD,
      x_size ++ z_size ++ y_size,
      if with_yaw && !correct_yaw then yaw.map (fun w => -w) else yaw,
      if with_yaw && correct_yaw then yawVecCam yaw else [])
  | .LIDAR, .DEPTH =>
    some (rtOpt.getD rtLD,
      x_size ++ y_size ++ z_size,
      if with_yaw && !correct_yaw then
        yaw.map (fun w => wrap (w + π / 2)) else yaw,
      if with_yaw && correct_yaw then yawVecLidarDepth yaw else [])
  | .DEPTH, .LIDAR =>
    some (rtOpt.getD rtDL,
      x_size ++ y_size ++ z_size,
      if with_yaw && !correct_yaw then
        yaw.map (fun w => wrap (w - π / 2)) else yaw,
      if with_yaw && correct_yaw then yawVecLidarDepth yaw else [])
  | _, _ => none

/-- The transform `convert` performs on one row of the working buffer after
the identity shortcut and input classification: size-column split, per-pair
branch, application of `rt_mat` to the coordinates, yaw recomputation via
`atan2` on the `correct_yaw=True` path, and reassembly
`cat([xyz[..., :3], xyz_size, yaw, remains], dim=-1)`. -/
def core (row : List ℝ) (src dst : Box3DMode) (rtOpt : Option RtMat)
    (with_yaw correct_yaw : Bool) : Except ConvertErr (List ℝ) :=
  let x_size := listSlice row 3 4
  let y_size := listSlice row 4 5
  let z_size := listSlice row 5 6
  let yaw0 := listSlice row 6 7
  match coreBranch src dst rtOpt with_yaw correct_yaw x_size y_size z_size yaw0 with
  | none => .error .unsupportedConversion
  | some (rt, xyz_size, yaw1, yawVec) =>
    match listSlice row 0 3 with
    | [x0, y0, z0] =>
      let v := rt.apply ⟨x0, y0, z0⟩
      if with_yaw && correct_yaw then
        match yawVec with
        | [a, b, c] =>
          let rv := mat3Apply rt.rotPart ⟨a, b, c⟩
          let th := if dst = .CAM then atan2 (-rv.z) rv.x else atan2 rv.y rv.x
          .ok ([v.x, v.y, v.z] ++ xyz_size ++ [wrap th] ++ row.drop 7)
        | _ => .error .shapeMismatch
      else
        if with_yaw then
          .ok ([v.x, v.y, v.z] ++ xyz_size ++ yaw1 ++ row.drop 7)
        else
          .ok ([v.x, v.y, v.z] ++ xyz_size ++ row.drop 6)
    | _ => .error .shapeMismatch

/-- The input (and output) kinds of `convert`: a flat k-list/tuple, one row
of a bare numpy array / torch tensor, or a `BaseInstance3DBoxes` carrying its
own `with_yaw` flag. -/
inductive BoxInput
  | flat (xs : List ℝ)
  | arr (row : List ℝ)
  | boxes (row : List ℝ) (withYaw : Bool)

/-- `Box3DMode.convert`: identity shortcut, input classification (with the
`assert len(box) >= 7` for flat inputs and the `with_yaw` override for
`BaseInstance3DBoxes` inputs), then the per-row transform `core`, and
reconstruction of the input's kind. -/
def convert (box : BoxInput) (src dst : Box3DMode) (rtOpt : Option RtMat)
    (with_yaw correct_yaw : Bool) : Except ConvertErr BoxInput :=
  if src = dst then .ok box
  else
    match box with
    | .flat xs =>
      if xs.length < 7 then .error .malformedBox
      else (core xs src dst rtOpt with_yaw correct_yaw).map .flat
    | .arr row => (core row src dst rtOpt with_yaw correct_yaw).map .arr
    | .boxes row wy => (core row src dst rtOpt wy correct_yaw).map (fun r => .boxes r wy)

/-- The six directed conversions for which `convert` has a branch; every
other ordered pair falls through to the `NotImplementedError` branch. -/
def supportedPair (src dst : Box3DMode) : Bool :=
  match src, dst with
  | .LIDAR, .CAM => true
  | .CAM, .LIDAR => true
  | .DEPTH, .CAM => true
  | .CAM, .DEPTH => true
  | .LIDAR, .DEPTH => true
  | .DEPTH, .LIDAR => true
  | _, _ => false

/-! ### A buffer-store model of the tensor operations

`convert` receives its input as a reference into a store of numeric buffers.
On the `src != dst` path it first clones the input buffer ("avoid modifying
the input box") and every torch operation it then performs (`torch.cat`,
matrix multiplication, arithmetic on slices) is out-of-place: each returns a
freshly allocated buffer.  `convertStore` makes this explicit: the store is
threaded through, buffers are only ever appended, and the transform itself
is the same `core` applied to the cloned value. -/

/-- A store of numeric row buffers, addressed by index. -/
structure Store where
  bufs : List (List ℝ)

/-- Read the buffer at index `i`. -/
def readBuf (s : Store) (i : Nat) : List ℝ :=
  s.bufs.getD i []

/-- Allocate a fresh buffer holding `v`; returns the new store and the fresh
index. -/
def allocBuf (s : Store) (v : List ℝ) : Store × Nat :=
  (⟨s.bufs ++ [v]⟩, s.bufs.length)

/-- `convert` on a buffer reference: the identity shortcut returns the input
reference itself; otherwise the input is cloned and the transform `core`
runs on the clone, its result going to a fresh output buffer. -/
def convertStore (s : Store) (i : Nat) (src dst : Box3DMode)
    (rtOpt : Option RtMat) (with_yaw correct_yaw : Bool) :
    Store × Except ConvertErr Nat :=
  if src = dst then (s, .ok i)
  else
    let s1j := allocBuf s (readBuf s i)
    match core (readBuf s1j.1 s1j.2) src dst rtOpt with_yaw correct_yaw with
    | .error e => (s1j.1, .error e)
    | .ok res =>
      let s2k := allocBuf s1j.1 res
      (s2k.1, .ok s2k.2)

/-! ### Basic facts about the yaw wrap -/

lemma wrap_mem_Ico (a : ℝ) : wrap a ∈ Set.Ico (-π) π := by
  have hp : (0 : ℝ) < π * 2 := by positivity
  have h1 : ((⌊a / (π * 2) + 1 / 2⌋ : ℤ) : ℝ) ≤ a / (π * 2) + 1 / 2 := Int.floor_le _
  have h2 : a / (π * 2) + 1 / 2 < ((⌊a / (π * 2) + 1 / 2⌋ : ℤ) : ℝ) + 1 :=
    Int.lt_floor_add_one _
  have key : (a / (π * 2) + 1 / 2) * (π * 2) = a + π := by
    field_simp
    ring
  have h1' : ((⌊a / (π * 2) + 1 / 2⌋ : ℤ) : ℝ) * (π * 2) ≤ a + π := by
    calc ((⌊a / (π * 2) + 1 / 2⌋ : ℤ) : ℝ) * (π * 2)
        ≤ (a / (π * 2) + 1 / 2) * (π * 2) := by
          exact mul_le_mul_of_nonneg_right h1 hp.le
      _ = a + π := key
  have h2' : a + π < (((⌊a / (π * 2) + 1 / 2⌋ : ℤ) : ℝ) + 1) * (π * 2) := by
    calc a + π = (a / (π * 2) + 1 / 2) * (π * 2) := key.symm
      _ < (((⌊a / (π * 2) + 1 / 2⌋ : ℤ) : ℝ) + 1) * (π * 2) := by
          exact (mul_lt_mul_right hp).2 h2
  unfold wrap limit_period
  constructor
  · nlinarith
  · nlinarith

lemma wrap_eq_wrap_of_sub (a b : ℝ) (k : ℤ) (h : a - b = π * 2 * k) :
    wrap a = wrap b := by
  have hp : (π * 2 : ℝ) ≠ 0 := by positivity
  have hdiv : a / (π * 2) + 1 / 2 = b / (π * 2) + 1 / 2 + (k : ℝ) := by
    field_simp
    linarith
  unfold wrap limit_period
  rw [hdiv, Int.floor_add_int]
  push_cast
  linarith

lemma wrap_eq_self {a : ℝ} (h : a ∈ Set.Ico (-π) π) : wrap a = a := by
  have hp : (0 : ℝ) < π * 2 := by positivity
  have key : a / (π * 2) + 1 / 2 = (a + π) / (π * 2) := by
    field_simp
    ring
  have hfl : ⌊a / (π * 2) + 1 / 2⌋ = 0 := by
    rw [key, Int.floor_eq_zero_iff]
    constructor
    · exact div_nonneg (by linarith [h.1]) hp.le
    · exact (div_lt_one hp).2 (by linarith [h.2])
  unfold wrap limit_period
  rw [hfl]
  simp

lemma wrap_wrap (a : ℝ) : wrap (wrap a) = wrap a :=
  wrap_eq_self (wrap_mem_Ico a)

lemma wrap_sub_self (a : ℝ) : a - wrap a = π * 2 * ⌊a / (π * 2) + 1 / 2⌋ := by
  unfold wrap limit_period
  ring

lemma wrap_neg_wrap_sub (b c : ℝ) : wrap (-wrap b - c) = wrap (-b - c) := by
  refine wrap_eq_wrap_of_sub _ _ ⌊b / (π * 2) + 1 / 2⌋ ?_
  have h := wrap_sub_self b
  linarith

lemma wrap_wrap_add (b c : ℝ) : wrap (wrap b + c) = wrap (b + c) := by
  refine wrap_eq_wrap_of_sub _ _ (-⌊b / (π * 2) + 1 / 2⌋) ?_
  have h := wrap_sub_self b
  push_cast
  linarith

lemma wrap_wrap_sub (b c : ℝ) : wrap (wrap b - c) = wrap (b - c) := by
  refine wrap_eq_wrap_of_sub _ _ (-⌊b / (π * 2) + 1 / 2⌋) ?_
  have h := wrap_sub_self b
  push_cast
  linarith

/-! ### `atan2` on points of the unit circle -/

lemma wrap_atan2_sin_cos (t : ℝ) :
    wrap (atan2 (Real.sin t) (Real.cos t)) = wrap t := by
  have h := Complex.arg_cos_add_sin_mul_I_sub t
  have he : atan2 (Real.sin t) (Real.cos t) =
      Complex.arg (Complex.cos t + Complex.sin t * Complex.I) := by
    unfold atan2
    rw [Complex.mk_eq_add_mul_I, Complex.ofReal_cos, Complex.ofReal_sin]
  rw [he]
  exact wrap_eq_wrap_of_sub _ _ ⌊(π - t) / (2 * π)⌋ (by linear_combination h)

lemma wrap_atan2_negcos_negsin (t : ℝ) :
    wrap (atan2 (-Real.cos t) (-Real.sin t)) = wrap (-t - π / 2) := by
  have hs : Real.sin (-t - π / 2) = -Real.cos t := by
    rw [Real.sin_sub]
    simp
  have hc : Real.cos (-t - π / 2) = -Real.sin t := by
    rw [Real.cos_sub]
    simp
  rw [← hs, ← hc, wrap_atan2_sin_cos]

lemma wrap_atan2_negsin_cos (t : ℝ) :
    wrap (atan2 (-Real.sin t) (Real.cos t)) = wrap (-t) := by
  have hs : Real.sin (-t) = -Real.sin t := Real.sin_neg t
  have hc : Real.cos (-t) = Real.cos t := Real.cos_neg t
  rw [← hs, ← hc, wrap_atan2_sin_cos]

lemma wrap_atan2_cos_negsin (t : ℝ) :
    wrap (atan2 (Real.cos t) (-Real.sin t)) = wrap (t + π / 2) := by
  have hs : Real.sin (t + π / 2) = Real.cos t := by
    rw [Real.sin_add]
    simp
  have hc : Real.cos (t + π / 2) = -Real.sin t := by
    rw [Real.cos_add]
    simp
  rw [← hs, ← hc, wrap_atan2_sin_cos]

lemma wrap_atan2_negcos_sin (t : ℝ) :
    wrap (atan2 (-Real.cos t) (Real.sin t)) = wrap (t - π / 2) := by
  have hs : Real.sin (t - π / 2) = -Real.cos t := by
    rw [Real.sin_sub]
    simp
  have hc : Real.cos (t - π / 2) = Real.sin t := by
    rw [Real.cos_sub]
    simp
  rw [← hs, ← hc, wrap_atan2_sin_cos]

/-! ### Evaluation of `convert` on a generic row, generic `rt_mat` -/

lemma conv_gen_LC_f (rtOpt : Option RtMat) (x y z dx dy dz yw : ℝ) (rest : List ℝ) :
    convert (.arr ([x, y, z, dx, dy, dz, yw] ++ rest)) .LIDAR .CAM rtOpt true false
      = .ok (.arr (vec3List ((rtOpt.getD rtLC).apply ⟨x, y, z⟩) ++ [dx, dz, dy] ++
          wrap (-yw - π / 2) :: rest)) := by
  simp [convert, core, coreBranch, listSlice, vec3List, Except.map]

lemma conv_gen_CL_f (rtOpt : Option RtMat) (x y z dx dy dz yw : ℝ) (rest : List ℝ) :
    convert (.arr ([x, y, z, dx, dy, dz, yw] ++ rest)) .CAM .LIDAR rtOpt true false
      = .ok (.arr (vec3List ((rtOpt.getD rtCL).apply ⟨x, y, z⟩) ++ [dx, dz, dy] ++
          wrap (-yw - π / 2) :: rest)) := by
  simp [convert, core, coreBranch, listSlice, vec3List, Except.map]

lemma conv_gen_DC_f (rtOpt : Option RtMat) (x y z dx dy dz yw : ℝ) (rest : List ℝ) :
    convert (.arr ([x, y, z, dx, dy, dz, yw] ++ rest)) .DEPTH .CAM rtOpt true false
      = .ok (.arr (vec3List ((rtOpt.getD rtDC).apply ⟨x, y, z⟩) ++ [dx, dz, dy] ++
          (-yw) :: rest)) := by
  simp [convert, core, coreBranch, listSlice, vec3List, Except.map]

lemma conv_gen_CD_f (rtOpt : Option RtMat) (x y z dx dy dz yw : ℝ) (rest : List ℝ) :
    convert (.arr ([x, y, z, dx, dy, dz, yw] ++ rest)) .CAM .DEPTH rtOpt true false
      = .ok (.arr (vec3List ((rtOpt.getD rtCD).apply ⟨x, y, z⟩) ++ [dx, dz, dy] ++
          (-yw) :: rest)) := by
  simp [convert, core, coreBranch, listSlice, vec3List, Except.map]

lemma conv_gen_LD_f (rtOpt : Option RtMat) (x y z dx dy dz yw : ℝ) (rest : List ℝ) :
    convert (.arr ([x, y, z, dx, dy, dz, yw] ++ rest)) .LIDAR .DEPTH rtOpt true false
      = .ok (.arr (vec3List ((rtOpt.getD rtLD).apply ⟨x, y, z⟩) ++ [dx, dy, dz] ++
          wrap (yw + π / 2) :: rest)) := by
  simp [convert, core, coreBranch, listSlice, vec3List, Except.map]

lemma conv_gen_DL_f (rtOpt : Option RtMat) (x y z dx dy dz yw : ℝ) (rest : List ℝ) :
    convert (.arr ([x, y, z, dx, dy, dz, yw] ++ rest)) .DEPTH .LIDAR rtOpt true false
      = .ok (.arr (vec3List ((rtOpt.getD rtDL).apply ⟨x, y, z⟩) ++ [dx, dy, dz] ++
          wrap (yw - π / 2) :: rest)) := by
  simp [convert, core, coreBranch, listSlice, vec3List, Except.map]

lemma conv_gen_LC_t (rtOpt : Option RtMat) (x y z dx dy dz yw : ℝ) (rest : List ℝ) :
    convert (.arr ([x, y, z, dx, dy, dz, yw] ++ rest)) .LIDAR .CAM rtOpt true true
      = .ok (.arr (vec3List ((rtOpt.getD rtLC).apply ⟨x, y, z⟩) ++ [dx, dz, dy] ++
          wrap (atan2
            (-(mat3Apply (rtOpt.getD rtLC).rotPart ⟨Real.cos yw, Real.sin yw, 0⟩).z)
            ((mat3Apply (rtOpt.getD rtLC).rotPart ⟨Real.cos yw, Real.sin yw, 0⟩).x))
          :: rest)) := by
  simp [convert, core, coreBranch, listSlice, vec3List, yawVecLidarDepth, Except.map]

lemma conv_gen_CL_t (rtOpt : Option RtMat) (x y z dx dy dz yw : ℝ) (rest : List ℝ) :
    convert (.arr ([x, y, z, dx, dy, dz, yw] ++ rest)) .CAM .LIDAR rtOpt true true
      = .ok (.arr (vec3List ((rtOpt.getD rtCL).apply ⟨x, y, z⟩) ++ [dx, dz, dy] ++
          wrap (atan2
            ((mat3Apply (rtOpt.getD rtCL).rotPart ⟨Real.cos yw, 0, -Real.sin yw⟩).y)
            ((mat3Apply (rtOpt.getD rtCL).rotPart ⟨Real.cos yw, 0, -Real.sin yw⟩).x))
          :: rest)) := by
  simp [convert, core, coreBranch, listSlice, vec3List, yawVecCam, Except.map]

lemma conv_gen_DC_t (rtOpt : Option RtMat) (x y z dx dy dz yw : ℝ) (rest : List ℝ) :
    convert (.arr ([x, y, z, dx, dy, dz, yw] ++ rest)) .DEPTH .CAM rtOpt true true
      = .ok (.arr (vec3List ((rtOpt.getD rtDC).apply ⟨x, y, z⟩) ++ [dx, dz, dy] ++
          wrap (atan2
            (-(mat3Apply (rtOpt.getD rtDC).rotPart ⟨Real.cos yw, Real.sin yw, 0⟩).z)
            ((mat3Apply (rtOpt.getD rtDC).rotPart ⟨Real.cos yw, Real.sin yw, 0⟩).x))
          :: rest)) := by
  simp [convert, core, coreBranch, listSlice, vec3List, yawVecLidarDepth, Except.map]

lemma conv_gen_CD_t (rtOpt : Option RtMat) (x y z dx dy dz yw : ℝ) (rest : List ℝ) :
    convert (.arr ([x, y, z, dx, dy, dz, yw] ++ rest)) .CAM .DEPTH rtOpt true true
      = .ok (.arr (vec3List ((rtOpt.getD rtCD).apply ⟨x, y, z⟩) ++ [dx, dz, dy] ++
          wrap (atan2
            ((mat3Apply (rtOpt.getD rtCD).rotPart ⟨Real.cos yw, 0, -Real.sin yw⟩).y)
            ((mat3Apply (rtOpt.getD rtCD).rotPart ⟨Real.cos yw, 0, -Real.sin yw⟩).x))
          :: rest)) := by
  simp [convert, core, coreBranch, listSlice, vec3List, yawVecCam, Except.map]

lemma conv_gen_LD_t (rtOpt : Option RtMat) (x y z dx dy dz yw : ℝ) (rest : List ℝ) :
    convert (.arr ([x, y, z, dx, dy, dz, yw] ++ rest)) .LIDAR .DEPTH rtOpt true true
      = .ok (.arr (vec3List ((rtOpt.getD rtLD).apply ⟨x, y, z⟩) ++ [dx, dy, dz] ++
          wrap (atan2
            ((mat3Apply (rtOpt.getD rtLD).rotPart ⟨Real.cos yw, Real.sin yw, 0⟩).y)
            ((mat3Apply (rtOpt.getD rtLD).rotPart ⟨Real.cos yw, Real.sin yw, 0⟩).x))
          :: rest)) := by
  simp [convert, core, coreBranch, listSlice, vec3List, yawVecLidarDepth, Except.map]

lemma conv_gen_DL_t (rtOpt : Option RtMat) (x y z dx dy dz yw : ℝ) (rest : List ℝ) :
    convert (.arr ([x, y, z, dx, dy, dz, yw] ++ rest)) .DEPTH .LIDAR rtOpt true true
      = .ok (.arr (vec3List ((rtOpt.getD rtDL).apply ⟨x, y, z⟩) ++ [dx, dy, dz] ++
          wrap (atan2
            ((mat3Apply (rtOpt.getD rtDL).rotPart ⟨Real.cos yw, Real.sin yw, 0⟩).y)
            ((mat3Apply (rtOpt.getD rtDL).rotPart ⟨Real.cos yw, Real.sin yw, 0⟩).x))
          :: rest)) := by
  simp [convert, core, coreBranch, listSlice, vec3List, yawVecLidarDepth, Except.map]

lemma conv_gen_LC_n (rtOpt : Option RtMat) (cy : Bool) (x y z dx dy dz : ℝ)
    (rest : List ℝ) :
    convert (.arr ([x, y, z, dx, dy, dz] ++ rest)) .LIDAR .CAM rtOpt false cy
      = .ok (.arr (vec3List ((rtOpt.getD rtLC).apply ⟨x, y, z⟩) ++ [dx, dz, dy] ++
          rest)) := by
  simp [convert, core, coreBranch, listSlice, vec3List, Except.map]

lemma conv_gen_CL_n (rtOpt : Option RtMat) (cy : Bool) (x y z dx dy dz : ℝ)
    (rest : List ℝ) :
    convert (.arr ([x, y, z, dx, dy, dz] ++ rest)) .CAM .LIDAR rtOpt false cy
      = .ok (.arr (vec3List ((rtOpt.getD rtCL).apply ⟨x, y, z⟩) ++ [dx, dz, dy] ++
          rest)) := by
  simp [convert, core, coreBranch, listSlice, vec3List, Except.map]

lemma conv_gen_DC_n (rtOpt : Option RtMat) (cy : Bool) (x y z dx dy dz : ℝ)
    (rest : List ℝ) :
    convert (.arr ([x, y, z, dx, dy, dz] ++ rest)) .DEPTH .CAM rtOpt false cy
      = .ok (.arr (vec3List ((rtOpt.getD rtDC).apply ⟨x, y, z⟩) ++ [dx, dz, dy] ++
          rest)) := by
  simp [convert, core, coreBranch, listSlice, vec3List, Except.map]

lemma conv_gen_CD_n (rtOpt : Option RtMat) (cy : Bool) (x y z dx dy dz : ℝ)
    (rest : List ℝ) :
    convert (.arr ([x, y, z, dx, dy, dz] ++ rest)) .CAM .DEPTH rtOpt false cy
      = .ok (.arr (vec3List ((rtOpt.getD rtCD).apply ⟨x, y, z⟩) ++ [dx, dz, dy] ++
          rest)) := by
  simp [convert, core, coreBranch, listSlice, vec3List, Except.map]

lemma conv_gen_LD_n (rtOpt : Option RtMat) (cy : Bool) (x y z dx dy dz : ℝ)
    (rest : List ℝ) :
    convert (.arr ([x, y, z, dx, dy, dz] ++ rest)) .LIDAR .DEPTH rtOpt false cy
      = .ok (.arr (vec3List ((rtOpt.getD rtLD).apply ⟨x, y, z⟩) ++ [dx, dy, dz] ++
          rest)) := by
  simp [convert, core, coreBranch, listSlice, vec3List, Except.map]

lemma conv_gen_DL_n (rtOpt : Option RtMat) (cy : Bool) (x y z dx dy dz : ℝ)
    (rest : List ℝ) :
    convert (.arr ([x, y, z, dx, dy, dz] ++ rest)) .DEPTH .LIDAR rtOpt false cy
      = .ok (.arr (vec3List ((rtOpt.getD rtDL).apply ⟨x, y, z⟩) ++ [dx, dy, dz] ++
          rest)) := by
  simp [convert, core, coreBranch, listSlice, vec3List, Except.map]

/-! ### Evaluation of `convert` on a generic row, default `rt_mat` -/

lemma conv_LC_f (x y z dx dy dz yw : ℝ) (rest : List ℝ) :
    convert (.arr ([x, y, z, dx, dy, dz, yw] ++ rest)) .LIDAR .CAM none true false
      = .ok (.arr ([-y, -z, x, dx, dz, dy, wrap (-yw - π / 2)] ++ rest)) := by
  simp [convert, core, coreBranch, listSlice, RtMat.apply, RtMat.rotPart, mat3Apply,
    dot3, Except.map, rtLC]

lemma conv_CL_f (x y z dx dy dz yw : ℝ) (rest : List ℝ) :
    convert (.arr ([x, y, z, dx, dy, dz, yw] ++ rest)) .CAM .LIDAR none true false
      = .ok (.arr ([z, -x, -y, dx, dz, dy, wrap (-yw - π / 2)] ++ rest)) := by
  simp [convert, core, coreBranch, listSlice, RtMat.apply, RtMat.rotPart, mat3Apply,
    dot3, Except.map, rtCL]

lemma conv_DC_f (x y z dx dy dz yw : ℝ) (rest : List ℝ) :
    convert (.arr ([x, y, z, dx, dy, dz, yw] ++ rest)) .DEPTH .CAM none true false
      = .ok (.arr ([x, -z, y, dx, dz, dy, -yw] ++ rest)) := by
  simp [convert, core, coreBranch, listSlice, RtMat.apply, RtMat.rotPart, mat3Apply,
    dot3, Except.map, rtDC]

lemma conv_CD_f (x y z dx dy dz yw : ℝ) (rest : List ℝ) :
    convert (.arr ([x, y, z, dx, dy, dz, yw] ++ rest)) .CAM .DEPTH none true false
      = .ok (.arr ([x, z, -y, dx, dz, dy, -yw] ++ rest)) := by
  simp [convert, core, coreBranch, listSlice, RtMat.apply, RtMat.rotPart, mat3Apply,
    dot3, Except.map, rtCD]

lemma conv_LD_f (x y z dx dy dz yw : ℝ) (rest : List ℝ) :
    convert (.arr ([x, y, z, dx, dy, dz, yw] ++ rest)) .LIDAR .DEPTH none true false
      = .ok (.arr ([-y, x, z, dx, dy, dz, wrap (yw + π / 2)] ++ rest)) := by
  simp [convert, core, coreBranch, listSlice, RtMat.apply, RtMat.rotPart, mat3Apply,
    dot3, Except.map, rtLD]

lemma conv_DL_f (x y z dx dy dz yw : ℝ) (rest : List ℝ) :
    convert (.arr ([x, y, z, dx, dy, dz, yw] ++ rest)) .DEPTH .LIDAR none true false
      = .ok (.arr ([y, -x, z, dx, dy, dz, wrap (yw - π / 2)] ++ rest)) := by
  simp [convert, core, coreBranch, listSlice, RtMat.apply, RtMat.rotPart, mat3Apply,
    dot3, Except.map, rtDL]

lemma conv_LC_t (x y z dx dy dz yw : ℝ) (rest : List ℝ) :
    convert (.arr ([x, y, z, dx, dy, dz, yw] ++ rest)) .LIDAR .CAM none true true
      = .ok (.arr ([-y, -z, x, dx, dz, dy,
          wrap (atan2 (-Real.cos yw) (-Real.sin yw))] ++ rest)) := by
  simp [convert, core, coreBranch, listSlice, RtMat.apply, RtMat.rotPart, mat3Apply,
    dot3, Except.map, rtLC, yawVecLidarDepth, atan2]

lemma conv_CL_t (x y z dx dy dz yw : ℝ) (rest : List ℝ) :
    convert (.arr ([x, y, z, dx, dy, dz, yw] ++ rest)) .CAM .LIDAR none true true
      = .ok (.arr ([z, -x, -y, dx, dz, dy,
          wrap (atan2 (-Real.cos yw) (-Real.sin yw))] ++ rest)) := by
  simp [convert, core, coreBranch, listSlice, RtMat.apply, RtMat.rotPart, mat3Apply,
    dot3, Except.map, rtCL, yawVecCam, atan2]

lemma conv_DC_t (x y z dx dy dz yw : ℝ) (rest : List ℝ) :
    convert (.arr ([x, y, z, dx, dy, dz, yw] ++ rest)) .DEPTH .CAM none true true
      = .ok (.arr ([x, -z, y, dx, dz, dy,
          wrap (atan2 (-Real.sin yw) (Real.cos yw))] ++ rest)) := by
  simp [convert, core, coreBranch, listSlice, RtMat.apply, RtMat.rotPart, mat3Apply,
    dot3, Except.map, rtDC, yawVecLidarDepth, atan2]

lemma conv_CD_t (x y z dx dy dz yw : ℝ) (rest : List ℝ) :
    convert (.arr ([x, y, z, dx, dy, dz, yw] ++ rest)) .CAM .DEPTH none true true
      = .ok (.arr ([x, z, -y, dx, dz, dy,
          wrap (atan2 (-Real.sin yw) (Real.cos yw))] ++ rest)) := by
  simp [convert, core, coreBranch, listSlice, RtMat.apply, RtMat.rotPart, mat3Apply,
    dot3, Except.map, rtCD, yawVecCam, atan2]

lemma conv_LD_t (x y z dx dy dz yw : ℝ) (rest : List ℝ) :
    convert (.arr ([x, y, z, dx, dy, dz, yw] ++ rest)) .LIDAR .DEPTH none true true
      = .ok (.arr ([-y, x, z, dx, dy, dz,
          wrap (atan2 (Real.cos yw) (-Real.sin yw))] ++ rest)) := by
  simp [convert, core, coreBranch, listSlice, RtMat.apply, RtMat.rotPart, mat3Apply,
    dot3, Except.map, rtLD, yawVecLidarDepth, atan2]

lemma conv_DL_t (x y z dx dy dz yw : ℝ) (rest : List ℝ) :
    convert (.arr ([x, y, z, dx, dy, dz, yw] ++ rest)) .DEPTH .LIDAR none true true
      = .ok (.arr ([y, -x, z, dx, dy, dz,
          wrap (atan2 (-Real.cos yw) (Real.sin yw))] ++ rest)) := by
  simp [convert, core, coreBranch, listSlice, RtMat.apply, RtMat.rotPart, mat3Apply,
    dot3, Except.map, rtDL, yawVecLidarDepth, atan2]

/-! ### Structural facts about `core` and `convert` -/

lemma core_ne_malformed (row : List ℝ) (src dst : Box3DMode) (rtOpt : Option RtMat)
    (wy cy : Bool) : core row src dst rtOpt wy cy ≠ .error .malformedBox := by
  rcases hb : coreBranch src dst rtOpt wy cy (listSlice row 3 4) (listSlice row 4 5)
      (listSlice row 5 6) (listSlice row 6 7) with _ | ⟨rt, xs, ys, yv⟩ <;>
    · simp only [core, hb]
      repeat' split
      all_goals simp

lemma map_eq_error_iff {α β : Type} (f : α → β) (e : Except ConvertErr α)
    (err : ConvertErr) : e.map f = .error err ↔ e = .error err := by
  cases e <;> simp [Except.map]

lemma getD_double_append (l : List (List ℝ)) (v w : List ℝ) (i : Nat)
    (h : i < l.length) : ((l ++ [v]) ++ [w]).getD i [] = l.getD i [] := by
  rw [List.getD_append _ _ _ _ (by simp; omega), List.getD_append _ _ _ _ h]

lemma dropTake_sizes (v : Vec3) (d1 d2 d3 : ℝ) (tail : List ℝ) :
    ((vec3List v ++ [d1, d2, d3] ++ tail).drop 3).take 3 = [d1, d2, d3] := by
  simp [vec3List]

lemma dropTake_yaw (v : Vec3) (d1 d2 d3 g : ℝ) (tail : List ℝ) :
    ((vec3List v ++ [d1, d2, d3] ++ g :: tail).drop 6).take 1 = [g] := by
  simp [vec3List]

lemma wrap_neg_wrap (b : ℝ) : wrap (-wrap b) = wrap (-b) := by
  refine wrap_eq_wrap_of_sub _ _ ⌊b / (π * 2) + 1 / 2⌋ ?_
  have h := wrap_sub_self b
  linarith

/-! ### The claims -/

/-- Claim C1: converting the flat box `[1, 2, 3, 4, 5, 6, 0.0]` from LIDAR to
CAM with the default matrix and `correct_yaw=false` yields center
`(-2, -3, 1)`, sizes `(4, 6, 5)`, and yaw `wrap(-0 - π/2) = -π/2`. -/
theorem claim_C1_lidar_to_cam_concrete :
    convert (.flat [1, 2, 3, 4, 5, 6, 0]) .LIDAR .CAM none true false
      = .ok (.flat [-2, -3, 1, 4, 6, 5, -(π / 2)]) := by
  have hw : wrap (-(π / 2) : ℝ) = -(π / 2) :=
    wrap_eq_self (Set.mem_Ico.mpr ⟨by linarith [Real.pi_pos], by linarith [Real.pi_pos]⟩)
  simp [convert, core, coreBranch, listSlice, RtMat.apply, RtMat.rotPart, mat3Apply,
    dot3, Except.map, rtLC, hw]

/-- Claim C5: for every box, every coordinate system `X`, every `rt_mat` and
all flag values, `convert box X X ...` returns the input itself, with no
validation or transform applied (the source's `if src == dst: return box`
shortcut precedes every check). -/
theorem claim_C5_identity (box : BoxInput) (X : Box3DMode) (rtOpt : Option RtMat)
    (wy cy : Bool) : convert box X X rtOpt wy cy = .ok box := by
  simp [convert]

/-- Claim C9: the transform stage returns the `UnsupportedConversion` error
exactly for the ordered pairs outside the six listed directed conversions
(within the three-mode enum, those are the diagonal pairs, which `convert`
itself intercepts with its identity shortcut); it never silently passes a
box through an unlisted pair. -/
theorem claim_C9_unsupported_guard (row : List ℝ) (src dst : Box3DMode)
    (rtOpt : Option RtMat) (wy cy : Bool) :
    core row src dst rtOpt wy cy = .error .unsupportedConversion ↔
      supportedPair src dst = false := by
  cases src <;> cases dst <;>
    · simp only [supportedPair, core, coreBranch]
      repeat' split
      all_goals simp

/-- Claim C4 (counterexample): a tensor-kind box of width 5 with
`with_yaw=true` is NOT rejected with `MalformedBox`; `convert` silently
returns a garbage box with the clamped slices.  The source's width assert
only guards flat list/tuple inputs. -/
theorem claim_C4_counterexample :
    convert (.arr [1, 2, 3, 4, 5]) .LIDAR .CAM none true false
      = .ok (.arr [-2, -3, 1, 4, 5]) := by
  simp [convert, core, coreBranch, listSlice, RtMat.apply, RtMat.rotPart, mat3Apply,
    dot3, Except.map, rtLC]

/-- Claim C4 (amended): for `src ≠ dst`, `convert` fails with `MalformedBox`
exactly when the input is a flat list/tuple with fewer than 7 elements
(regardless of `with_yaw`); array/tensor and box-object inputs are never
width-validated. -/
theorem claim_C4_malformed_amended (box : BoxInput) (src dst : Box3DMode)
    (rtOpt : Option RtMat) (wy cy : Bool) (h : src ≠ dst) :
    convert box src dst rtOpt wy cy = .error .malformedBox ↔
      ∃ xs, box = .flat xs ∧ xs.length < 7 := by
  cases box with
  | flat xs =>
    by_cases hl : xs.length < 7
    · simp [convert, if_neg h, hl]
    · simp [convert, if_neg h, hl, map_eq_error_iff, core_ne_malformed]
  | arr row => simp [convert, if_neg h, map_eq_error_iff, core_ne_malformed]
  | boxes row wy2 => simp [convert, if_neg h, map_eq_error_iff, core_ne_malformed]

/-- Witness for `claim_C4_malformed_amended` at a length-2 flat box, LIDAR to
CAM. -/
theorem claim_C4_malformed_amended_witness :
    Box3DMode.LIDAR ≠ Box3DMode.CAM ∧
      (convert (.flat [1, 2]) .LIDAR .CAM none true false = .error .malformedBox ↔
        ∃ xs, BoxInput.flat [1, 2] = .flat xs ∧ xs.length < 7) :=
  ⟨by decide, claim_C4_malformed_amended _ _ _ _ _ _ (by decide)⟩

/-- Claim C8: `convert` never mutates the caller's buffer: in the
buffer-store model, after a conversion the input buffer holds exactly the
values it held before the call (the transform operates on a private clone,
and every tensor operation allocates fresh buffers). -/
theorem claim_C8_no_mutation (s : Store) (i : Nat) (src dst : Box3DMode)
    (rtOpt : Option RtMat) (wy cy : Bool) (h : i < s.bufs.length) :
    readBuf (convertStore s i src dst rtOpt wy cy).1 i = readBuf s i := by
  simp only [convertStore]
  split
  · rfl
  · repeat' split
    all_goals simp only [readBuf, allocBuf]
    all_goals first
      | exact getD_double_append _ _ _ _ h
      | exact List.getD_append _ _ _ _ h

/-- Witness for `claim_C8_no_mutation` on a one-buffer store, LIDAR to CAM. -/
theorem claim_C8_no_mutation_witness :
    0 < (Store.mk [[(1 : ℝ), 2, 3, 4, 5, 6, 0]]).bufs.length ∧
      readBuf (convertStore (Store.mk [[(1 : ℝ), 2, 3, 4, 5, 6, 0]]) 0
        .LIDAR .CAM none true false).1 0
        = readBuf (Store.mk [[(1 : ℝ), 2, 3, 4, 5, 6, 0]]) 0 :=
  ⟨by simp, claim_C8_no_mutation _ _ _ _ _ _ _ (by simp)⟩

/-- Claim C7: for every supported pair with `src ≠ dst`, any `rt_mat` and any
flag combination, whenever `convert` succeeds on an array box its three
output size fields (columns 3-5) are a permutation of the input size fields
`(dx, dy, dz)` — a pure relabeling, never a numeric recombination. -/
theorem claim_C7_size_permutation (src dst : Box3DMode) (h : src ≠ dst)
    (rtOpt : Option RtMat) (wy cy : Bool) (x y z dx dy dz yw : ℝ) (rest out : List ℝ)
    (hc : convert (.arr ([x, y, z, dx, dy, dz, yw] ++ rest)) src dst rtOpt wy cy
      = .ok (.arr out)) :
    ((out.drop 3).take 3).Perm [dx, dy, dz] := by
  have pswap : ([dx, dz, dy] : List ℝ).Perm [dx, dy, dz] := (List.Perm.swap dy dz []).cons dx
  have hrow : ([x, y, z, dx, dy, dz, yw] : List ℝ) ++ rest
      = [x, y, z, dx, dy, dz] ++ (yw :: rest) := by simp
  cases src <;> cases dst <;> cases wy <;>
    first
    | exact absurd rfl h
    | (rw [hrow] at hc
       first
       | rw [conv_gen_LC_n] at hc
       | rw [conv_gen_CL_n] at hc
       | rw [conv_gen_DC_n] at hc
       | rw [conv_gen_CD_n] at hc
       | rw [conv_gen_LD_n] at hc
       | rw [conv_gen_DL_n] at hc
       injection hc with h1
       injection h1 with h2
       subst h2
       rw [dropTake_sizes]
       try exact pswap)
    | (cases cy <;>
        (first
         | rw [conv_gen_LC_f] at hc
         | rw [conv_gen_CL_f] at hc
         | rw [conv_gen_DC_f] at hc
         | rw [conv_gen_CD_f] at hc
         | rw [conv_gen_LD_f] at hc
         | rw [conv_gen_DL_f] at hc
         | rw [conv_gen_LC_t] at hc
         | rw [conv_gen_CL_t] at hc
         | rw [conv_gen_DC_t] at hc
         | rw [conv_gen_CD_t] at hc
         | rw [conv_gen_LD_t] at hc
         | rw [conv_gen_DL_t] at hc
         injection hc with h1
         injection h1 with h2
         subst h2
         rw [dropTake_sizes]
         try exact pswap))

/-- Witness for `claim_C7_size_permutation` at the concrete LIDAR→CAM
conversion of `[1, 2, 3, 4, 5, 6, 0]`. -/
theorem claim_C7_size_permutation_witness :
    Box3DMode.LIDAR ≠ Box3DMode.CAM ∧
      ((([-2, -3, 1, 4, 6, 5, wrap (-0 - π / 2)] ++ ([] : List ℝ)).drop 3).take 3).Perm
        [4, 5, 6] :=
  ⟨by decide, claim_C7_size_permutation _ _ (by decide) none true false 1 2 3 4 5 6 0 [] _
    (conv_LC_f 1 2 3 4 5 6 0 [])⟩

/-- Claim C3 (amended): for every supported pair with `src ≠ dst`, any
`rt_mat`, either `correct_yaw` flag and `with_yaw=true`, if the input yaw
lies in `(-π, π]` then the output yaw lies in `[-π, π)`.  (The restriction on
the input yaw is forced by the DEPTH↔CAM `correct_yaw=false` paths, which
negate the yaw without applying `limit_period`; all other paths wrap
unconditionally.) -/
theorem claim_C3_yaw_range_amended (src dst : Box3DMode) (h : src ≠ dst)
    (rtOpt : Option RtMat) (cy : Bool) (x y z dx dy dz yw : ℝ) (rest : List ℝ)
    (hyw : yw ∈ Set.Ioc (-π) π) :
    ∃ out g, convert (.arr ([x, y, z, dx, dy, dz, yw] ++ rest)) src dst rtOpt true cy
        = .ok (.arr out) ∧ (out.drop 6).take 1 = [g] ∧ g ∈ Set.Ico (-π) π := by
  have hyw2 := Set.mem_Ioc.mp hyw
  have hneg : -yw ∈ Set.Ico (-π) π :=
    Set.mem_Ico.mpr ⟨by linarith [hyw2.2], by linarith [hyw2.1]⟩
  cases src <;> cases dst <;> cases cy <;>
    first
    | exact absurd rfl h
    | exact ⟨_, _, conv_gen_LC_f rtOpt x y z dx dy dz yw rest,
        dropTake_yaw _ _ _ _ _ _, wrap_mem_Ico _⟩
    | exact ⟨_, _, conv_gen_CL_f rtOpt x y z dx dy dz yw rest,
        dropTake_yaw _ _ _ _ _ _, wrap_mem_Ico _⟩
    | exact ⟨_, _, conv_gen_DC_f rtOpt x y z dx dy dz yw rest,
        dropTake_yaw _ _ _ _ _ _, hneg⟩
    | exact ⟨_, _, conv_gen_CD_f rtOpt x y z dx dy dz yw rest,
        dropTake_yaw _ _ _ _ _ _, hneg⟩
    | exact ⟨_, _, conv_gen_LD_f rtOpt x y z dx dy dz yw rest,
        dropTake_yaw _ _ _ _ _ _, wrap_mem_Ico _⟩
    | exact ⟨_, _, conv_gen_DL_f rtOpt x y z dx dy dz yw rest,
        dropTake_yaw _ _ _ _ _ _, wrap_mem_Ico _⟩
    | exact ⟨_, _, conv_gen_LC_t rtOpt x y z dx dy dz yw rest,
        dropTake_yaw _ _ _ _ _ _, wrap_mem_Ico _⟩
    | exact ⟨_, _, conv_gen_CL_t rtOpt x y z dx dy dz yw rest,
        dropTake_yaw _ _ _ _ _ _, wrap_mem_Ico _⟩
    | exact ⟨_, _, conv_gen_DC_t rtOpt x y z dx dy dz yw rest,
        dropTake_yaw _ _ _ _ _ _, wrap_mem_Ico _⟩
    | exact ⟨_, _, conv_gen_CD_t rtOpt x y z dx dy dz yw rest,
        dropTake_yaw _ _ _ _ _ _, wrap_mem_Ico _⟩
    | exact ⟨_, _, conv_gen_LD_t rtOpt x y z dx dy dz yw rest,
        dropTake_yaw _ _ _ _ _ _, wrap_mem_Ico _⟩
    | exact ⟨_, _, conv_gen_DL_t rtOpt x y z dx dy dz yw rest,
        dropTake_yaw _ _ _ _ _ _, wrap_mem_Ico _⟩

/-- Claim C3 (counterexample): converting `[0,0,0,1,1,1,-π]` from DEPTH to
CAM with `correct_yaw=false` outputs yaw `π`, which is outside `[-π, π)` —
this path negates the yaw without wrapping. -/
theorem claim_C3_counterexample :
    convert (.arr [0, 0, 0, 1, 1, 1, -π]) .DEPTH .CAM none true false
      = .ok (.arr [0, 0, 0, 1, 1, 1, π]) ∧ π ∉ Set.Ico (-π) π := by
  constructor
  · have h := conv_DC_f 0 0 0 1 1 1 (-π) []
    simpa using h
  · simp [Set.mem_Ico]

/-- Claim C10: with `correct_yaw=true` and a 3×4 `rt_mat`, the output yaw
depends only on the rotation part `rt_mat[:3,:3]` and the input yaw, never on
the translation column: two calls with the same rotation but different
translations produce identical output yaws (their centers may differ). -/
theorem claim_C10_yaw_ignores_translation (src dst : Box3DMode) (h : src ≠ dst)
    (m : Mat3) (t t' : Vec3) (x y z dx dy dz yw : ℝ) (rest : List ℝ) :
    ∃ out1 out2,
      convert (.arr ([x, y, z, dx, dy, dz, yw] ++ rest)) src dst
        (some (.rot4 m t)) true true = .ok (.arr out1) ∧
      convert (.arr ([x, y, z, dx, dy, dz, yw] ++ rest)) src dst
        (some (.rot4 m t')) true true = .ok (.arr out2) ∧
      (out1.drop 6).take 1 = (out2.drop 6).take 1 := by
  cases src with
  | LIDAR =>
    cases dst with
    | LIDAR => exact absurd rfl h
    | CAM =>
      refine ⟨_, _, conv_gen_LC_t (some (.rot4 m t)) x y z dx dy dz yw rest,
        conv_gen_LC_t (some (.rot4 m t')) x y z dx dy dz yw rest, ?_⟩
      simp [vec3List, RtMat.rotPart]
    | DEPTH =>
      refine ⟨_, _, conv_gen_LD_t (some (.rot4 m t)) x y z dx dy dz yw rest,
        conv_gen_LD_t (some (.rot4 m t')) x y z dx dy dz yw rest, ?_⟩
      simp [vec3List, RtMat.rotPart]
  | CAM =>
    cases dst with
    | LIDAR =>
      refine ⟨_, _, conv_gen_CL_t (some (.rot4 m t)) x y z dx dy dz yw rest,
        conv_gen_CL_t (some (.rot4 m t')) x y z dx dy dz yw rest, ?_⟩
      simp [vec3List, RtMat.rotPart]
    | CAM => exact absurd rfl h
    | DEPTH =>
      refine ⟨_, _, conv_gen_CD_t (some (.rot4 m t)) x y z dx dy dz yw rest,
        conv_gen_CD_t (some (.rot4 m t')) x y z dx dy dz yw rest, ?_⟩
      simp [vec3List, RtMat.rotPart]
  | DEPTH =>
    cases dst with
    | LIDAR =>
      refine ⟨_, _, conv_gen_DL_t (some (.rot4 m t)) x y z dx dy dz yw rest,
        conv_gen_DL_t (some (.rot4 m t')) x y z dx dy dz yw rest, ?_⟩
      simp [vec3List, RtMat.rotPart]
    | CAM =>
      refine ⟨_, _, conv_gen_DC_t (some (.rot4 m t)) x y z dx dy dz yw rest,
        conv_gen_DC_t (some (.rot4 m t')) x y z dx dy dz yw rest, ?_⟩
      simp [vec3List, RtMat.rotPart]
    | DEPTH => exact absurd rfl h

/-- Witness for `claim_C3_yaw_range_amended` at DEPTH→CAM, yaw 0. -/
theorem claim_C3_yaw_range_amended_witness :
    (Box3DMode.DEPTH ≠ Box3DMode.CAM ∧ (0 : ℝ) ∈ Set.Ioc (-π) π) ∧
      ∃ out g, convert (.arr ([0, 0, 0, 1, 1, 1, 0] ++ [])) .DEPTH .CAM none true false
          = .ok (.arr out) ∧ (out.drop 6).take 1 = [g] ∧ g ∈ Set.Ico (-π) π :=
  ⟨⟨by decide, Set.mem_Ioc.mpr ⟨by linarith [Real.pi_pos], Real.pi_pos.le⟩⟩,
    claim_C3_yaw_range_amended _ _ (by decide) none false 0 0 0 1 1 1 0 []
      (Set.mem_Ioc.mpr ⟨by linarith [Real.pi_pos], Real.pi_pos.le⟩)⟩

/-- Witness for `claim_C10_yaw_ignores_translation` at LIDAR→CAM with the
identity rotation and two different translations. -/
theorem claim_C10_yaw_ignores_translation_witness :
    Box3DMode.LIDAR ≠ Box3DMode.CAM ∧
      ∃ out1 out2,
        convert (.arr ([1, 2, 3, 4, 5, 6, 0] ++ [])) .LIDAR .CAM
          (some (.rot4 ⟨⟨1, 0, 0⟩, ⟨0, 1, 0⟩, ⟨0, 0, 1⟩⟩ ⟨0, 0, 0⟩)) true true
          = .ok (.arr out1) ∧
        convert (.arr ([1, 2, 3, 4, 5, 6, 0] ++ [])) .LIDAR .CAM
          (some (.rot4 ⟨⟨1, 0, 0⟩, ⟨0, 1, 0⟩, ⟨0, 0, 1⟩⟩ ⟨7, 8, 9⟩)) true true
          = .ok (.arr out2) ∧
        (out1.drop 6).take 1 = (out2.drop 6).take 1 :=
  ⟨by decide, claim_C10_yaw_ignores_translation _ _ (by decide) _ _ _ 1 2 3 4 5 6 0 []⟩

/-- Claim C6: for every supported pair with `src ≠ dst` and the default
(omitted) `rt_mat`, the yaw produced by the `correct_yaw=true` path (rotate a
direction vector, recompute via `atan2`, wrap) agrees with the yaw produced
by the `correct_yaw=false` closed-form fixup, up to period-2π wrapping; the
rest of the output row is identical.  Exact over the reals. -/
theorem claim_C6_yaw_paths_agree (src dst : Box3DMode) (h : src ≠ dst)
    (x y z dx dy dz yw : ℝ) (rest : List ℝ) :
    ∃ pre gT gF,
      convert (.arr ([x, y, z, dx, dy, dz, yw] ++ rest)) src dst none true true
        = .ok (.arr (pre ++ gT :: rest)) ∧
      convert (.arr ([x, y, z, dx, dy, dz, yw] ++ rest)) src dst none true false
        = .ok (.arr (pre ++ gF :: rest)) ∧
      pre.length = 6 ∧ wrap gT = wrap gF := by
  cases src with
  | LIDAR =>
    cases dst with
    | LIDAR => exact absurd rfl h
    | CAM =>
      refine ⟨[-y, -z, x, dx, dz, dy], wrap (atan2 (-Real.cos yw) (-Real.sin yw)),
        wrap (-yw - π / 2), ?_, ?_, by simp, ?_⟩
      · rw [conv_LC_t]
        simp
      · rw [conv_LC_f]
        simp
      · rw [wrap_wrap, wrap_atan2_negcos_negsin, wrap_wrap]
    | DEPTH =>
      refine ⟨[-y, x, z, dx, dy, dz], wrap (atan2 (Real.cos yw) (-Real.sin yw)),
        wrap (yw + π / 2), ?_, ?_, by simp, ?_⟩
      · rw [conv_LD_t]
        simp
      · rw [conv_LD_f]
        simp
      · rw [wrap_wrap, wrap_atan2_cos_negsin, wrap_wrap]
  | CAM =>
    cases dst with
    | LIDAR =>
      refine ⟨[z, -x, -y, dx, dz, dy], wrap (atan2 (-Real.cos yw) (-Real.sin yw)),
        wrap (-yw - π / 2), ?_, ?_, by simp, ?_⟩
      · rw [conv_CL_t]
        simp
      · rw [conv_CL_f]
        simp
      · rw [wrap_wrap, wrap_atan2_negcos_negsin, wrap_wrap]
    | CAM => exact absurd rfl h
    | DEPTH =>
      refine ⟨[x, z, -y, dx, dz, dy], wrap (atan2 (-Real.sin yw) (Real.cos yw)),
        -yw, ?_, ?_, by simp, ?_⟩
      · rw [conv_CD_t]
        simp
      · rw [conv_CD_f]
        simp
      · rw [wrap_wrap, wrap_atan2_negsin_cos]
  | DEPTH =>
    cases dst with
    | LIDAR =>
      refine ⟨[y, -x, z, dx, dy, dz], wrap (atan2 (-Real.cos yw) (Real.sin yw)),
        wrap (yw - π / 2), ?_, ?_, by simp, ?_⟩
      · rw [conv_DL_t]
        simp
      · rw [conv_DL_f]
        simp
      · rw [wrap_wrap, wrap_atan2_negcos_sin, wrap_wrap]
    | CAM =>
      refine ⟨[x, -z, y, dx, dz, dy], wrap (atan2 (-Real.sin yw) (Real.cos yw)),
        -yw, ?_, ?_, by simp, ?_⟩
      · rw [conv_DC_t]
        simp
      · rw [conv_DC_f]
        simp
      · rw [wrap_wrap, wrap_atan2_negsin_cos]
    | DEPTH => exact absurd rfl h

/-- Claim C2: for every supported pair with `src ≠ dst`, default rotation
matrices and either `correct_yaw` flag, converting a yaw-carrying box from
`src` to `dst` and back reproduces the original center exactly, the original
sizes in their original positions, the extra fields, and the original yaw up
to period-2π wrapping.  Exact over the reals. -/
theorem claim_C2_roundtrip (src dst : Box3DMode) (h : src ≠ dst) (cy : Bool)
    (x y z dx dy dz yw : ℝ) (rest : List ℝ) :
    ∃ mid yw2,
      convert (.arr ([x, y, z, dx, dy, dz, yw] ++ rest)) src dst none true cy
        = .ok (.arr mid) ∧
      convert (.arr mid) dst src none true cy
        = .ok (.arr ([x, y, z, dx, dy, dz] ++ yw2 :: rest)) ∧
      wrap yw2 = wrap yw := by
  cases src with
  | LIDAR =>
    cases dst with
    | LIDAR => exact absurd rfl h
    | CAM =>
      cases cy with
      | false =>
        refine ⟨[-y, -z, x, dx, dz, dy, wrap (-yw - π / 2)] ++ rest,
          wrap (-(wrap (-yw - π / 2)) - π / 2),
          conv_LC_f x y z dx dy dz yw rest, ?_, ?_⟩
        · rw [conv_CL_f]
          simp
        · rw [wrap_wrap, wrap_neg_wrap_sub, show -(-yw - π / 2) - π / 2 = yw by ring]
      | true =>
        refine ⟨[-y, -z, x, dx, dz, dy, wrap (atan2 (-Real.cos yw) (-Real.sin yw))] ++ rest,
          wrap (atan2 (-Real.cos (wrap (atan2 (-Real.cos yw) (-Real.sin yw))))
            (-Real.sin (wrap (atan2 (-Real.cos yw) (-Real.sin yw))))),
          conv_LC_t x y z dx dy dz yw rest, ?_, ?_⟩
        · rw [conv_CL_t]
          simp
        · rw [wrap_wrap, wrap_atan2_negcos_negsin, wrap_atan2_negcos_negsin,
            wrap_neg_wrap_sub, show -(-yw - π / 2) - π / 2 = yw by ring]
    | DEPTH =>
      cases cy with
      | false =>
        refine ⟨[-y, x, z, dx, dy, dz, wrap (yw + π / 2)] ++ rest,
          wrap (wrap (yw + π / 2) - π / 2),
          conv_LD_f x y z dx dy dz yw rest, ?_, ?_⟩
        · rw [conv_DL_f]
          simp
        · rw [wrap_wrap, wrap_wrap_sub, show yw + π / 2 - π / 2 = yw by ring]
      | true =>
        refine ⟨[-y, x, z, dx, dy, dz, wrap (atan2 (Real.cos yw) (-Real.sin yw))] ++ rest,
          wrap (atan2 (-Real.cos (wrap (atan2 (Real.cos yw) (-Real.sin yw))))
            (Real.sin (wrap (atan2 (Real.cos yw) (-Real.sin yw))))),
          conv_LD_t x y z dx dy dz yw rest, ?_, ?_⟩
        · rw [conv_DL_t]
          simp
        · rw [wrap_wrap, wrap_atan2_negcos_sin, wrap_atan2_cos_negsin,
            wrap_wrap_sub, show yw + π / 2 - π / 2 = yw by ring]
  | CAM =>
    cases dst with
    | LIDAR =>
      cases cy with
      | false =>
        refine ⟨[z, -x, -y, dx, dz, dy, wrap (-yw - π / 2)] ++ rest,
          wrap (-(wrap (-yw - π / 2)) - π / 2),
          conv_CL_f x y z dx dy dz yw rest, ?_, ?_⟩
        · rw [conv_LC_f]
          simp
        · rw [wrap_wrap, wrap_neg_wrap_sub, show -(-yw - π / 2) - π / 2 = yw by ring]
      | true =>
        refine ⟨[z, -x, -y, dx, dz, dy, wrap (atan2 (-Real.cos yw) (-Real.sin yw))] ++ rest,
          wrap (atan2 (-Real.cos (wrap (atan2 (-Real.cos yw) (-Real.sin yw))))
            (-Real.sin (wrap (atan2 (-Real.cos yw) (-Real.sin yw))))),
          conv_CL_t x y z dx dy dz yw rest, ?_, ?_⟩
        · rw [conv_LC_t]
          simp
        · rw [wrap_wrap, wrap_atan2_negcos_negsin, wrap_atan2_negcos_negsin,
            wrap_neg_wrap_sub, show -(-yw - π / 2) - π / 2 = yw by ring]
    | CAM => exact absurd rfl h
    | DEPTH =>
      cases cy with
      | false =>
        refine ⟨[x, z, -y, dx, dz, dy, -yw] ++ rest, yw,
          conv_CD_f x y z dx dy dz yw rest, ?_, ?_⟩
        · rw [conv_DC_f]
          simp
        · rfl
      | true =>
        refine ⟨[x, z, -y, dx, dz, dy, wrap (atan2 (-Real.sin yw) (Real.cos yw))] ++ rest,
          wrap (atan2 (-Real.sin (wrap (atan2 (-Real.sin yw) (Real.cos yw))))
            (Real.cos (wrap (atan2 (-Real.sin yw) (Real.cos yw))))),
          conv_CD_t x y z dx dy dz yw rest, ?_, ?_⟩
        · rw [conv_DC_t]
          simp
        · rw [wrap_wrap, wrap_atan2_negsin_cos, wrap_atan2_negsin_cos,
            wrap_neg_wrap, neg_neg]
  | DEPTH =>
    cases dst with
    | LIDAR =>
      cases cy with
      | false =>
        refine ⟨[y, -x, z, dx, dy, dz, wrap (yw - π / 2)] ++ rest,
          wrap (wrap (yw - π / 2) + π / 2),
          conv_DL_f x y z dx dy dz yw rest, ?_, ?_⟩
        · rw [conv_LD_f]
          simp
        · rw [wrap_wrap, wrap_wrap_add, show yw - π / 2 + π / 2 = yw by ring]
      | true =>
        refine ⟨[y, -x, z, dx, dy, dz, wrap (atan2 (-Real.cos yw) (Real.sin yw))] ++ rest,
          wrap (atan2 (Real.cos (wrap (atan2 (-Real.cos yw) (Real.sin yw))))
            (-Real.sin (wrap (atan2 (-Real.cos yw) (Real.sin yw))))),
          conv_DL_t x y z dx dy dz yw rest, ?_, ?_⟩
        · rw [conv_LD_t]
          simp
        · rw [wrap_wrap, wrap_atan2_cos_negsin, wrap_atan2_negcos_sin,
            wrap_wrap_add, show yw - π / 2 + π / 2 = yw by ring]
    | CAM =>
      cases cy with
      | false =>
        refine ⟨[x, -z, y, dx, dz, dy, -yw] ++ rest, yw,
          conv_DC_f x y z dx dy dz yw rest, ?_, ?_⟩
        · rw [conv_CD_f]
          simp
        · rfl
      | true =>
        refine ⟨[x, -z, y, dx, dz, dy, wrap (atan2 (-Real.sin yw) (Real.cos yw))] ++ rest,
          wrap (atan2 (-Real.sin (wrap (atan2 (-Real.sin yw) (Real.cos yw))))
            (Real.cos (wrap (atan2 (-Real.sin yw) (Real.cos yw))))),
          conv_DC_t x y z dx dy dz yw rest, ?_, ?_⟩
        · rw [conv_CD_t]
          simp
        · rw [wrap_wrap, wrap_atan2_negsin_cos, wrap_atan2_negsin_cos,
            wrap_neg_wrap, neg_neg]
    | DEPTH => exact absurd rfl h

/-- Witness for `claim_C6_yaw_paths_agree` at LIDAR→CAM on `[1,2,3,4,5,6,0]`. -/
theorem claim_C6_yaw_paths_agree_witness :
    Box3DMode.LIDAR ≠ Box3DMode.CAM ∧
      ∃ pre gT gF,
        convert (.arr ([1, 2, 3, 4, 5, 6, 0] ++ [])) .LIDAR .CAM none true true
          = .ok (.arr (pre ++ gT :: [])) ∧
        convert (.arr ([1, 2, 3, 4, 5, 6, 0] ++ [])) .LIDAR .CAM none true false
          = .ok (.arr (pre ++ gF :: [])) ∧
        pre.length = 6 ∧ wrap gT = wrap gF :=
  ⟨by decide, claim_C6_yaw_paths_agree _ _ (by decide) 1 2 3 4 5 6 0 []⟩

/-- Witness for `claim_C2_roundtrip` at LIDAR→CAM→LIDAR on `[1,2,3,4,5,6,0]`,
`correct_yaw=false`. -/
theorem claim_C2_roundtrip_witness :
    Box3DMode.LIDAR ≠ Box3DMode.CAM ∧
      ∃ mid yw2,
        convert (.arr ([1, 2, 3, 4, 5, 6, 0] ++ [])) .LIDAR .CAM none true false
          = .ok (.arr mid) ∧
        convert (.arr mid) .CAM .LIDAR none true false
          = .ok (.arr ([1, 2, 3, 4, 5, 6] ++ yw2 :: [])) ∧
        wrap yw2 = wrap 0 :=
  ⟨by decide, claim_C2_roundtrip _ _ (by decide) false 1 2 3 4 5 6 0 []⟩

end
